import Mathlib

/-!
Verification of the SSARA data_utils converters (roipac2hdf5.py, gmtsar2hdf5.py,
isce2hdf5.py) against their specification.

The Python scripts are shallowly embedded: Python strings are modelled as
`String` (or as `List Char` where character-level computation is proved about),
Python dicts as association lists with in-place overwrite (`dictSet`), raw
binary rasters as lists of samples (or of bytes), and fallible Python code
(KeyError / IndexError / ValueError / h5py dataset collisions) as `Except`
values.  numpy float operations are modelled over the real numbers.
-/

deriving instance DecidableEq for Except

namespace SSARA

/-- Python exception outcomes that the embedded code can raise. -/
inductive PyError where
  | keyError (k : String)
  | indexError
  | valueError
  | datasetExists (name : String)
deriving DecidableEq, Repr

/-- Attribute values stored in the metadata dictionary: the scripts mix
strings, ints and Python `None` (e.g. an omitted `-swath` flag). -/
inductive AttrVal where
  | str (s : String)
  | int (i : Int)
  | noneV
deriving DecidableEq, Repr

/-- Python dict assignment `d[k] = v` on an association list: overwrite in
place if the key exists, else append.  Iteration order of the list models
dict iteration order (insertion order). -/
def dictSet {K V : Type} [DecidableEq K] : List (K × V) → K → V → List (K × V)
  | [], k, v => [(k, v)]
  | (k', v') :: rest, k, v =>
    if k' = k then (k', v) :: rest else (k', v') :: dictSet rest k v

/-- Python dict subscript `d[k]`: the value, or a KeyError. -/
def pyGet (m : List (String × String)) (k : String) : Except PyError String :=
  match m.lookup k with
  | some v => Except.ok v
  | none => Except.error (PyError.keyError k)

/-- Whether an `Except` computation succeeded (no exception was raised). -/
def isOkE {ε α : Type} : Except ε α → Bool
  | Except.ok _ => true
  | Except.error _ => false

/-- Python `str.split(sep)` for a one-character separator, on `List Char`:
splits on EVERY occurrence of the separator (`"a=b=c".split("=") =
["a","b","c"]`); the empty string yields `[""]`. -/
def splitOnChar (sep : Char) : List Char → List (List Char)
  | [] => [[]]
  | c :: rest =>
    if c = sep then [] :: splitOnChar sep rest
    else
      match splitOnChar sep rest with
      | [] => [[c]]
      | h :: t => (c :: h) :: t

/-- Python `str.strip()`: drop whitespace from both ends. -/
def pyStrip (cs : List Char) : List Char :=
  ((cs.dropWhile Char.isWhitespace).reverse.dropWhile Char.isWhitespace).reverse

/-- Python `needle in hay` substring test on `List Char`. -/
def hasSub (needle : List Char) : List Char → Bool
  | [] => needle.isEmpty
  | c :: rest => needle.isPrefixOf (c :: rest) || hasSub needle rest

/-! ## 4.1 Interleave Codec (roipac2hdf5.read_float32 / read_complex64,
isce2hdf5.read_float32 / read_complex64)

`numpy.reshape(rows, width)` of a flat sample stream is `chunkRows`; the even /
odd whole-row selection of `read_float32` uses the same `oddindices` index
vector as the source (`np.where(np.arange(length*2)&1)[0]`, i.e. the odd
indices below `length*2`). -/

/-- `numpy` reshape of a flat buffer into `n` rows of `w` samples
(row-major). -/
def chunkRows {α : Type} (w : Nat) : Nat → List α → List (List α)
  | 0, _ => []
  | Nat.succ n, buf => buf.take w :: chunkRows w n (buf.drop w)

/-- `np.where(np.arange(length*2)&1)[0]`: the odd indices `1,3,…,2·length-1`. -/
def oddindices (length : Nat) : List Nat :=
  (List.range (length * 2)).filter (fun i => i % 2 == 1)

/-- Core of `read_float32` (both converters): reshape the sample stream to
`length*2` rows of `width`, then take rows `oddindices-1` (plane a, the
amplitude rows `0,2,4,…`) and rows `oddindices` (plane p, the phase rows
`1,3,5,…`).  Samples are abstract (`α`), since the row shuffling never
inspects them. -/
def read_float32 {α : Type} (length width : Nat) (buf : List α) :
    List (List α) × List (List α) :=
  let data := chunkRows width (length * 2) buf
  ((oddindices length).map (fun i => data.getD (i - 1) []),
   (oddindices length).map (fun i => data.getD i []))

/-- The buffer described by the spec for `InterleavedFloat32Pairs`: rows of
plane A and plane B alternated whole-row (row `2k` is A's row `k`, row `2k+1`
is B's row `k`). -/
def interleaveRows {α : Type} (A B : List (List α)) : List (List α) :=
  (A.zip B).flatMap (fun p => [p.1, p.2])

/-- `np.hypot` over the reals. -/
noncomputable def npHypot (x y : ℝ) : ℝ := Real.sqrt (x ^ 2 + y ^ 2)

/-- `np.arctan2 y x` over the reals (the standard atan2 case split). -/
noncomputable def npArctan2 (y x : ℝ) : ℝ :=
  if 0 < x then Real.arctan (y / x)
  else if x < 0 then
    (if 0 ≤ y then Real.arctan (y / x) + Real.pi else Real.arctan (y / x) - Real.pi)
  else
    (if 0 < y then Real.pi / 2 else if y < 0 then -(Real.pi / 2) else 0)

/-- Core of `read_complex64` (both converters): reshape the complex sample
stream (re, im pairs) to `length` rows of `width`, then take
`np.hypot(data.real, data.imag)` and `np.arctan2(data.imag, data.real)`
elementwise. -/
noncomputable def read_complex64 (length width : Nat) (buf : List (ℝ × ℝ)) :
    List (List ℝ) × List (List ℝ) :=
  let data := chunkRows width length buf
  (data.map (fun row => row.map (fun z => npHypot z.1 z.2)),
   data.map (fun row => row.map (fun z => npArctan2 z.2 z.1)))

/-! ### Byte-level entry points (error behaviour)

`np.fromfile(f, dtype, count)` reads `min count ⌊bytes/itemsize⌋` complete
items — it does NOT fail on a short or a long file; the subsequent
`.reshape(rows, cols)` raises ValueError iff the number of items read differs
from `rows*cols`.  Bytes are abstracted as `Nat`s; an item is the list of its
bytes. -/

/-- `np.fromfile` on a byte buffer: the items actually read. -/
def npFromfileItems (itemsize count : Nat) (bytes : List Nat) : List (List Nat) :=
  (chunkRows itemsize (bytes.length / itemsize) bytes).take count

/-- `read_float32` from a raw byte buffer:
`np.fromfile(file, np.float32, length*2*width).reshape(length*2, width)`
followed by the row deinterleave.  float32 items are 4 bytes. -/
def read_float32_bytes (length width : Nat) (bytes : List Nat) :
    Except PyError (List (List (List Nat)) × List (List (List Nat))) :=
  let items := npFromfileItems 4 (length * 2 * width) bytes
  if items.length = length * 2 * width then
    Except.ok (read_float32 length width items)
  else Except.error PyError.valueError

/-- `read_complex64` from a raw byte buffer:
`np.fromfile(file, np.complex64, length*2*width).reshape(length, width)`.
complex64 items are 8 bytes; note the source passes count `length*2*width`
but reshapes to `length × width`. -/
def read_complex64_bytes (length width : Nat) (bytes : List Nat) :
    Except PyError (List (List (List Nat))) :=
  let items := npFromfileItems 8 (length * 2 * width) bytes
  if items.length = length * width then
    Except.ok (chunkRows width length items)
  else Except.error PyError.valueError

/-! ## 4.2 Sidecar reader: gmtsar2hdf5.read_prm -/

/-- One iteration of `read_prm`'s loop body:
`c = line.split("=")` then `prm_dict[c[0].strip()] = str.replace(c[1], '\n',
'').strip()`.  A line with no `=` gives `c` of length 1, so `c[1]` raises
IndexError. -/
def prmParseLine (line : List Char) : Except PyError (List Char × List Char) :=
  match splitOnChar '=' line with
  | [] => Except.error PyError.indexError
  | [_] => Except.error PyError.indexError
  | k :: v :: _ =>
    Except.ok (pyStrip k, pyStrip (v.filter (fun ch => ch ≠ '\n')))

/-- The accumulator loop of `read_prm` over the file's lines. -/
def readPrmGo (acc : List (List Char × List Char)) :
    List (List Char) → Except PyError (List (List Char × List Char))
  | [] => Except.ok acc
  | line :: rest =>
    match prmParseLine line with
    | Except.error e => Except.error e
    | Except.ok (k, v) => readPrmGo (dictSet acc k v) rest

/-- `read_prm`: fold the loop body over the lines of the file (lines as read
by Python iteration, i.e. including any trailing newline). -/
def read_prm (lines : List (List Char)) :
    Except PyError (List (List Char × List Char)) :=
  readPrmGo [] lines

/-! ## 4.3 Metadata Resolver (gmtsar2hdf5.main, mandatory block) -/

/-- The command-line options of gmtsar2hdf5 that feed the mandatory metadata
block.  `relative_orbit`, `scene_footprint` and `processing_type` are
required or defaulted by argparse; `mission` and `beam_swath` may be absent
(`None`). -/
structure GmtsarClos where
  mission : Option String
  beam_swath : Option String
  relative_orbit : Int
  scene_footprint : String
  processing_type : String

/-- Python truthiness of `clos.mission` (`if clos.mission:`): `None` and the
empty string are falsy. -/
def pyTruthy : Option String → Bool
  | none => false
  | some s => s != ""

/-- The `mission2sc_id` lookup table of gmtsar2hdf5.main (note identity `'6'`
maps to the empty string). -/
def mission2sc_id : List (String × String) :=
  [("1", "ERS"), ("2", "ERS"), ("3", "RS1"), ("4", "ENV1"), ("5", "ALOS"),
   ("6", ""), ("7", "TSX"), ("8", "CSK"), ("9", "RS2")]

/-- Mission resolution of gmtsar2hdf5.main lines 96-100: a truthy `-mission`
value wins; otherwise `mission2sc_id[prm_master['SC_identity']]`, where both
the `SC_identity` access and the table access are unguarded dict subscripts
(KeyError on a missing key). -/
def resolveMission (mission : Option String) (prm_master : List (String × String)) :
    Except PyError String :=
  if pyTruthy mission then Except.ok (mission.getD "")
  else
    match pyGet prm_master "SC_identity" with
    | Except.error e => Except.error e
    | Except.ok scid =>
      match mission2sc_id.lookup scid with
      | some v => Except.ok v
      | none => Except.error (PyError.keyError scid)

/-- Python `s.split(".")[0]`: the prefix before the first dot. -/
def pyTakeBeforeDot (cs : List Char) : List Char := cs.takeWhile (fun c => c ≠ '.')

/-- Digit string to number (the strings fed to it are checked all-digits). -/
def digitsToNat (cs : List Char) : Nat :=
  cs.foldl (fun acc c => acc * 10 + (c.toNat - '0'.toNat)) 0

/-- `datetime.strptime(s, '%Y%j')`: exactly four digits of year then one to
three digits of day-of-year in 1..366; anything else raises ValueError. -/
def parseYJ (cs : List Char) : Except PyError (Nat × Nat) :=
  if cs.all Char.isDigit ∧ 5 ≤ cs.length ∧ cs.length ≤ 7 then
    let y := digitsToNat (cs.take 4)
    let j := digitsToNat (cs.drop 4)
    if 1 ≤ j ∧ j ≤ 366 then Except.ok (y, j) else Except.error PyError.valueError
  else Except.error PyError.valueError

/-- Gregorian leap year (as used by Python's datetime). -/
def isLeap (y : Nat) : Bool :=
  y % 4 == 0 && (y % 100 != 0 || y % 400 == 0)

/-- Month lengths of year `y`. -/
def monthLengths (y : Nat) : List Nat :=
  [31, if isLeap y then 29 else 28, 31, 30, 31, 30, 31, 31, 30, 31, 30, 31]

/-- Walk the month lengths to convert a day-of-year into (month, day). -/
def doyToMDGo : List Nat → Nat → Nat → Nat × Nat
  | [], m, d => (m, d)
  | ml :: rest, m, d => if d ≤ ml then (m, d) else doyToMDGo rest (m + 1) (d - ml)

/-- Zero-padded decimal rendering of width `w`. -/
def natPad (w n : Nat) : String :=
  let s := toString n
  String.mk (List.replicate (w - s.length) '0') ++ s

/-- `date.strftime("%Y%m%d")` for a (year, day-of-year) date. -/
def formatYMD (y doy : Nat) : String :=
  let md := doyToMDGo (monthLengths y) 1 doy
  natPad 4 y ++ natPad 2 md.1 ++ natPad 2 md.2

/-- The mandatory-metadata block of gmtsar2hdf5.main (lines 88-89 and
94-106): dates are parsed from `SC_clock_start` of each PRM file (the part
before the first dot, format `%Y%j`), the mission comes from `-mission` or
the `SC_identity` table, and the seven mandatory entries are assigned into
the fresh `meta_dict`.  Every dict subscript can raise, and any raise aborts
the resolution. -/
def resolveMandatoryGmtsar (clos : GmtsarClos)
    (prm_master prm_slave : List (String × String)) :
    Except PyError (List (String × AttrVal)) :=
  match pyGet prm_master "SC_clock_start" with
  | Except.error e => Except.error e
  | Except.ok cs1 =>
    match parseYJ (pyTakeBeforeDot cs1.toList) with
    | Except.error e => Except.error e
    | Except.ok d1 =>
      match pyGet prm_slave "SC_clock_start" with
      | Except.error e => Except.error e
      | Except.ok cs2 =>
        match parseYJ (pyTakeBeforeDot cs2.toList) with
        | Except.error e => Except.error e
        | Except.ok d2 =>
          match resolveMission clos.mission prm_master with
          | Except.error e => Except.error e
          | Except.ok mission =>
            Except.ok (dictSet (dictSet (dictSet (dictSet (dictSet (dictSet
              (dictSet [] "mission" (AttrVal.str mission))
              "beam_swath"
                (match clos.beam_swath with
                 | some s => AttrVal.str s
                 | none => AttrVal.noneV))
              "relative_orbit" (AttrVal.int clos.relative_orbit))
              "first_date" (AttrVal.str (formatYMD d1.1 d1.2)))
              "last_date" (AttrVal.str (formatYMD d2.1 d2.2)))
              "scene_footprint" (AttrVal.str clos.scene_footprint))
              "processing_type" (AttrVal.str clos.processing_type))

/-! ## Footprint construction (roipac2hdf5.main lines 144-156,
isce2hdf5.footprintFromLogFile) -/

/-- roipac2hdf5.main lines 145-146: the `lats` and `lons` lists built from
the corner reference fields of the wrapped interferogram's .rsc dictionary,
in the fixed order REF1, REF3, REF4, REF2, REF1. -/
def roipacFootprintLists (rsc : List (String × String)) :
    Except PyError (List String × List String) :=
  match pyGet rsc "LAT_REF1" with
  | Except.error e => Except.error e
  | Except.ok lat1 =>
    match pyGet rsc "LAT_REF3" with
    | Except.error e => Except.error e
    | Except.ok lat3 =>
      match pyGet rsc "LAT_REF4" with
      | Except.error e => Except.error e
      | Except.ok lat4 =>
        match pyGet rsc "LAT_REF2" with
        | Except.error e => Except.error e
        | Except.ok lat2 =>
          match pyGet rsc "LON_REF1" with
          | Except.error e => Except.error e
          | Except.ok lon1 =>
            match pyGet rsc "LON_REF3" with
            | Except.error e => Except.error e
            | Except.ok lon3 =>
              match pyGet rsc "LON_REF4" with
              | Except.error e => Except.error e
              | Except.ok lon4 =>
                match pyGet rsc "LON_REF2" with
                | Except.error e => Except.error e
                | Except.ok lon2 =>
                  Except.ok ([lat1, lat3, lat4, lat2, lat1],
                             [lon1, lon3, lon4, lon2, lon1])

/-- The vertex strings of the footprint ring:
`[lon+' '+lat for lat,lon in zip(lats,lons)]`. -/
def footprintVertexList (lats lons : List String) : List String :=
  (lats.zip lons).map (fun p => p.2 ++ " " ++ p.1)

/-- The WKT polygon literal `"POLYGON((" + ",".join(...) + "))"`. -/
def footprintWKT (lats lons : List String) : String :=
  "POLYGON((" ++ String.intercalate "," (footprintVertexList lats lons) ++ "))"

/-- roipac2hdf5's `meta_dict['scene_footprint']` value. -/
def roipacSceneFootprint (rsc : List (String × String)) : Except PyError String :=
  match roipacFootprintLists rsc with
  | Except.error e => Except.error e
  | Except.ok p => Except.ok (footprintWKT p.1 p.2)

/-- The two substrings a log line must contain to count as a corner marker
line in isce2hdf5.footprintFromLogFile. -/
def isCornerMarker (line : List Char) : Bool :=
  hasSub "contrib.frameUtils.FrameInfoExtractor".toList line &&
    hasSub "Corner".toList line

/-- `line.strip().split(":")[-1]`: the text after the last colon of the
stripped line. -/
def lastColonField (cs : List Char) : List Char :=
  (splitOnChar ':' (pyStrip cs)).getLastD []

/-- The scanning loop of footprintFromLogFile: with 1-based `enumerate`,
`log[line_number-1]` is the marker line itself (its colon field is appended
to `lats`) and `log[line_number]` is the following line (appended to `lons`);
a marker on the final line makes `log[line_number]` raise IndexError. -/
def scanCorners : List (List Char) → Except PyError (List (List Char) × List (List Char))
  | [] => Except.ok ([], [])
  | line :: rest =>
    if isCornerMarker line then
      match rest with
      | [] => Except.error PyError.indexError
      | next :: _ =>
        match scanCorners rest with
        | Except.error e => Except.error e
        | Except.ok p => Except.ok (lastColonField line :: p.1, lastColonField next :: p.2)
    else scanCorners rest

/-- `sep.join` on character lists. -/
def charsIntercalate (sep : List Char) : List (List Char) → List Char
  | [] => []
  | [x] => x
  | x :: y :: rest => x ++ sep ++ charsIntercalate sep (y :: rest)

/-- isce2hdf5.footprintFromLogFile: scan the log for corner markers, then
build the ring from `lats[0],lats[1],lats[3],lats[2],lats[0]` (and the same
indices of `lons`); fewer than four scanned corners makes `lats[3]` raise
IndexError. -/
def footprintFromLogFile (log : List (List Char)) : Except PyError (List Char) :=
  match scanCorners log with
  | Except.error e => Except.error e
  | Except.ok (lats, lons) =>
    if 4 ≤ lats.length ∧ 4 ≤ lons.length then
      Except.ok ("POLYGON((".toList ++
        charsIntercalate ",".toList
          (([lats.getD 0 [], lats.getD 1 [], lats.getD 3 [], lats.getD 2 [],
             lats.getD 0 []].zip
            [lons.getD 0 [], lons.getD 1 [], lons.getD 3 [], lons.getD 2 [],
             lons.getD 0 []]).map
            (fun p => p.2 ++ " ".toList ++ p.1)) ++ "))".toList)
    else Except.error PyError.indexError

/-- isce2hdf5.main line 201: the log-scraped footprint is stored under
`scene_footprint`; nothing else is written by this step. -/
def isceSetFootprint (meta : List (String × AttrVal)) (log : List (List Char)) :
    Except PyError (List (String × AttrVal)) :=
  match footprintFromLogFile log with
  | Except.error e => Except.error e
  | Except.ok w => Except.ok (dictSet meta "scene_footprint" (AttrVal.str (String.mk w)))

/-! ## 4.5 Container Writer -/

/-- `group.create_dataset(name, …)`: h5py raises if a dataset of that name
already exists; otherwise the group gains the dataset.  A group is modelled
by its list of dataset names. -/
def createDataset (g : List String) (name : String) : Except PyError (List String) :=
  if name ∈ g then Except.error (PyError.datasetExists name)
  else Except.ok (g ++ [name])

/-- `if not os.path.basename(check) in group: group.create_dataset(create,…)`
— for the names used by the scripts `os.path.basename` is the identity. -/
def guardedCreate (g : List String) (check create : String) :
    Except PyError (List String) :=
  if check ∈ g then Except.ok g else createDataset g create

/-- The GEOCODE dataset writes of roipac2hdf5.main lines 208-217.  The final
guard tests the misspelled name `digital_elevatino_model` while creating
`digital_elevation_model`. -/
def roipacWriteGeocode (g : List String) : Except PyError (List String) :=
  match guardedCreate g "unwrapped_interferogram" "unwrapped_interferogram" with
  | Except.error e => Except.error e
  | Except.ok g1 =>
    match guardedCreate g1 "wrapped_interferogram" "wrapped_interferogram" with
    | Except.error e => Except.error e
    | Except.ok g2 =>
      match guardedCreate g2 "correlation" "correlation" with
      | Except.error e => Except.error e
      | Except.ok g3 =>
        match guardedCreate g3 "incidence_angle" "incidence_angle" with
        | Except.error e => Except.error e
        | Except.ok g4 =>
          guardedCreate g4 "digital_elevatino_model" "digital_elevation_model"

/-- The GEOCODE dataset writes of gmtsar2hdf5.main lines 179-186 (all four
guards test the same name they create). -/
def gmtsarWriteGeocode (g : List String) : Except PyError (List String) :=
  match guardedCreate g "wrapped_interferogram" "wrapped_interferogram" with
  | Except.error e => Except.error e
  | Except.ok g1 =>
    match guardedCreate g1 "unwrapped_interferogram" "unwrapped_interferogram" with
    | Except.error e => Except.error e
    | Except.ok g2 =>
      match guardedCreate g2 "wrapped_filtered_interferogram" "wrapped_filtered_interferogram" with
      | Except.error e => Except.error e
      | Except.ok g3 => guardedCreate g3 "correlation" "correlation"

/-- Python string `<=` (code-point lexicographic) on `List Char`. -/
def lexLe : List Char → List Char → Bool
  | [], _ => true
  | _ :: _, [] => false
  | a :: as, b :: bs =>
    if a.toNat < b.toNat then true
    else if a.toNat = b.toNat then lexLe as bs
    else false

/-- Python `<=` on strings. -/
def keyLe (a b : String) : Bool := lexLe a.toList b.toList

/-- gmtsar2hdf5.main line 189: `for key,value in sorted(meta_dict.iteritems())`
— the attribute write sequence is the item list sorted by key (keys are
unique, so sorting the pairs is sorting by key; `insertionSort` is stable,
like Python's sort). -/
def gmtsarAttrWrites {V : Type} (m : List (String × V)) : List (String × V) :=
  List.insertionSort (fun p q => keyLe p.1 q.1 = true) m

/-- roipac2hdf5.main line 220: `for key,value in meta_dict.iteritems()` — no
sorting, the attribute write sequence is dict iteration order. -/
def roipacAttrWrites {V : Type} (m : List (String × V)) : List (String × V) := m

/-- isce2hdf5.main line 277: `for key,value in meta_dict.items()` — no
sorting either. -/
def isceAttrWrites {V : Type} (m : List (String × V)) : List (String × V) := m

end SSARA

namespace SSARA

/-! ## Lemmas about the Interleave Codec -/

theorem chunkRows_length {α : Type} (w : Nat) :
    ∀ (n : Nat) (buf : List α), (chunkRows w n buf).length = n := by
  intro n
  induction n with
  | zero => intro buf; rfl
  | succ n ih => intro buf; simp [chunkRows, ih]

theorem chunkRows_flatten {α : Type} (w : Nat) :
    ∀ (rows : List (List α)), (∀ r ∈ rows, r.length = w) →
      chunkRows w rows.length rows.flatten = rows := by
  intro rows
  induction rows with
  | nil => intro _; rfl
  | cons r rest ih =>
    intro h
    have hr : r.length = w := h r (List.mem_cons_self r rest)
    simp only [List.flatten_cons, List.length_cons, chunkRows]
    rw [List.take_left' hr, List.drop_left' hr]
    rw [ih (fun x hx => h x (List.mem_cons_of_mem r hx))]

theorem oddindices_eq (n : Nat) :
    oddindices n = (List.range n).map (fun k => 2 * k + 1) := by
  induction n with
  | zero => rfl
  | succ n ih =>
    have h2 : (n + 1) * 2 = (n * 2 + 1) + 1 := by ring
    have he : n * 2 % 2 = 0 := Nat.mul_mod_left n 2
    have ho : (n * 2 + 1) % 2 = 1 := by omega
    rw [oddindices, h2, List.range_succ, List.range_succ, List.filter_append,
      List.filter_append, List.range_succ, List.map_append]
    rw [← oddindices]
    simp only [List.filter_cons, List.filter_nil, he, ho]
    simp [ih]
    omega

theorem interleaveRows_length {α : Type} :
    ∀ (A B : List (List α)), A.length = B.length →
      (interleaveRows A B).length = A.length * 2 := by
  intro A
  induction A with
  | nil => intro B _; rfl
  | cons a as ih =>
    intro B h
    cases B with
    | nil => simp at h
    | cons b bs =>
      simp only [interleaveRows, List.zip_cons_cons, List.flatMap_cons] at *
      have := ih bs (by simpa using h)
      simp only [interleaveRows] at this
      simp [this]
      omega

theorem interleaveRows_width {α : Type} {w : Nat} :
    ∀ (A B : List (List α)), (∀ r ∈ A, r.length = w) → (∀ r ∈ B, r.length = w) →
      ∀ r ∈ interleaveRows A B, r.length = w := by
  intro A
  induction A with
  | nil => intro B _ _ r hr; simp [interleaveRows] at hr
  | cons a as ih =>
    intro B hA hB r hr
    cases B with
    | nil => simp [interleaveRows] at hr
    | cons b bs =>
      simp only [interleaveRows, List.zip_cons_cons, List.flatMap_cons,
        List.cons_append, List.nil_append, List.mem_cons] at hr
      rcases hr with h | h | h
      · exact h ▸ hA a (by simp)
      · exact h ▸ hB b (by simp)
      · exact ih bs (fun x hx => hA x (by simp [hx])) (fun x hx => hB x (by simp [hx])) r h

theorem interleaveRows_getD_even {α : Type} :
    ∀ (A B : List (List α)) (k : Nat), A.length = B.length →
      (interleaveRows A B).getD (2 * k) [] = A.getD k [] := by
  intro A
  induction A with
  | nil =>
    intro B k h
    have : B = [] := List.length_eq_zero.mp h.symm
    subst this
    rfl
  | cons a as ih =>
    intro B k h
    cases B with
    | nil => simp at h
    | cons b bs =>
      simp only [interleaveRows, List.zip_cons_cons, List.flatMap_cons,
        List.cons_append, List.nil_append]
      cases k with
      | zero => rfl
      | succ k =>
        have h2 : 2 * (k + 1) = (2 * k) + 1 + 1 := by ring
        rw [h2, List.getD_cons_succ, List.getD_cons_succ, List.getD_cons_succ]
        exact ih bs k (by simpa using h)

theorem interleaveRows_getD_odd {α : Type} :
    ∀ (A B : List (List α)) (k : Nat), A.length = B.length →
      (interleaveRows A B).getD (2 * k + 1) [] = B.getD k [] := by
  intro A
  induction A with
  | nil =>
    intro B k h
    have : B = [] := List.length_eq_zero.mp h.symm
    subst this
    rfl
  | cons a as ih =>
    intro B k h
    cases B with
    | nil => simp at h
    | cons b bs =>
      simp only [interleaveRows, List.zip_cons_cons, List.flatMap_cons,
        List.cons_append, List.nil_append]
      cases k with
      | zero => rfl
      | succ k =>
        have h2 : 2 * (k + 1) + 1 = (2 * k + 1) + 1 + 1 := by ring
        rw [h2, List.getD_cons_succ, List.getD_cons_succ, List.getD_cons_succ]
        exact ih bs k (by simpa using h)

theorem map_getD_range {β : Type} :
    ∀ (A : List β) (d : β), (List.range A.length).map (fun k => A.getD k d) = A := by
  intro A
  induction A with
  | nil => intro d; rfl
  | cons a as ih =>
    intro d
    rw [List.length_cons, List.range_succ_eq_map, List.map_cons, List.map_map]
    have hcomp : ((fun k => (a :: as).getD k d) ∘ Nat.succ) = (fun k => as.getD k d) := by
      funext k
      simp
    rw [List.getD_cons_zero, hcomp, ih d]

/-- Claim C1: for valid dimensions, decoding a buffer built by interleaving
two `length × width` arrays row-by-row (row `2k` = plane A's row `k`, row
`2k+1` = plane B's row `k`) with `read_float32` recovers plane A as the first
result and plane B as the second (round-trip). -/
theorem claim_C1 {α : Type} (A B : List (List α)) (L w : Nat)
    (hA : A.length = L) (hB : B.length = L)
    (hwA : ∀ r ∈ A, r.length = w) (hwB : ∀ r ∈ B, r.length = w)
    (hL : 0 < L) (hw : 0 < w) :
    read_float32 L w (interleaveRows A B).flatten = (A, B) := by
  have hab : A.length = B.length := by omega
  have hlen : (interleaveRows A B).length = L * 2 := by
    rw [interleaveRows_length A B hab, hA]
  have hchunk : chunkRows w (L * 2) (interleaveRows A B).flatten = interleaveRows A B := by
    rw [← hlen]
    exact chunkRows_flatten w _ (interleaveRows_width A B hwA hwB)
  have h1 : (List.range L).map
      (fun k => (interleaveRows A B).getD (2 * k + 1 - 1) []) = A := by
    have step : (List.range L).map
        (fun k => (interleaveRows A B).getD (2 * k + 1 - 1) []) =
        (List.range L).map (fun k => A.getD k []) := by
      refine List.map_congr_left (fun k _ => ?_)
      rw [Nat.add_sub_cancel]
      exact interleaveRows_getD_even A B k hab
    rw [step, ← hA, map_getD_range]
  have h2 : (List.range L).map
      (fun k => (interleaveRows A B).getD (2 * k + 1) []) = B := by
    have step : (List.range L).map
        (fun k => (interleaveRows A B).getD (2 * k + 1) []) =
        (List.range L).map (fun k => B.getD k []) := by
      refine List.map_congr_left (fun k _ => ?_)
      exact interleaveRows_getD_odd A B k hab
    rw [step, ← hB, map_getD_range]
  simp only [read_float32, hchunk, oddindices_eq, List.map_map, Function.comp_def]
  rw [h1, h2]

/-- Witness for C1 at the spec's own end-to-end example: `length = 2`,
`width = 2`, planes `A = [[1,2],[3,4]]`, `B = [[10,20],[30,40]]`. -/
theorem claim_C1_witness :
    ([[(1 : Int), 2], [3, 4]].length = 2) ∧
    ([[(10 : Int), 20], [30, 40]].length = 2) ∧
    (∀ r ∈ [[(1 : Int), 2], [3, 4]], r.length = 2) ∧
    (∀ r ∈ [[(10 : Int), 20], [30, 40]], r.length = 2) ∧
    (0 : Nat) < 2 ∧
    read_float32 2 2 ((interleaveRows [[(1 : Int), 2], [3, 4]]
        [[10, 20], [30, 40]]).flatten) =
      ([[1, 2], [3, 4]], [[10, 20], [30, 40]]) :=
  ⟨rfl, rfl, by decide, by decide, by decide,
    claim_C1 [[1, 2], [3, 4]] [[10, 20], [30, 40]] 2 2 rfl rfl
      (by decide) (by decide) (by decide) (by decide)⟩

end SSARA

namespace SSARA

/-! ## Lemmas about the Complex64 decode -/

theorem getD_take {b : Type} (l : List b) (w j : Nat) (d : b) (hj : j < w) :
    (l.take w).getD j d = l.getD j d := by
  simp [List.getD_eq_getElem?_getD, List.getElem?_take, hj]

theorem getD_drop {b : Type} (l : List b) (n k : Nat) (d : b) :
    (l.drop n).getD k d = l.getD (n + k) d := by
  simp [List.getD_eq_getElem?_getD, List.getElem?_drop]

theorem chunkRows_getD {b : Type} (w : Nat) :
    ∀ (L : Nat) (buf : List b) (i j : Nat) (d : b), i < L → j < w →
      ((chunkRows w L buf).getD i []).getD j d = buf.getD (i * w + j) d := by
  intro L
  induction L with
  | zero => intro buf i j d hi _; exact absurd hi (Nat.not_lt_zero i)
  | succ L ih =>
    intro buf i j d hi hj
    cases i with
    | zero =>
      simp only [chunkRows, List.getD_cons_zero, Nat.zero_mul, Nat.zero_add]
      exact getD_take buf w j d hj
    | succ i =>
      simp only [chunkRows, List.getD_cons_succ]
      rw [ih (buf.drop w) i j d (Nat.lt_of_succ_lt_succ hi) hj, getD_drop]
      congr 1
      ring

theorem chunkRows_row_length {b : Type} (w : Nat) :
    ∀ (L : Nat) (buf : List b) (i : Nat), buf.length = L * w → i < L →
      ((chunkRows w L buf).getD i []).length = w := by
  intro L
  induction L with
  | zero => intro buf i _ hi; exact absurd hi (Nat.not_lt_zero i)
  | succ L ih =>
    intro buf i hbuf hi
    cases i with
    | zero =>
      simp only [chunkRows, List.getD_cons_zero, List.length_take]
      have hw : w ≤ buf.length := by
        rw [hbuf]
        calc w = 1 * w := (Nat.one_mul w).symm
        _ ≤ (L + 1) * w := Nat.mul_le_mul_right w (by omega)
      omega
    | succ i =>
      simp only [chunkRows, List.getD_cons_succ]
      refine ih (buf.drop w) i ?_ (Nat.lt_of_succ_lt_succ hi)
      rw [List.length_drop, hbuf]
      have : (L + 1) * w = L * w + w := by ring
      rw [this, Nat.add_sub_cancel]

theorem map_map_getD {c d : Type} (data : List (List c)) (f : c → d)
    (dflt : c) (d2 : d) (i j : Nat) (hj : j < (data.getD i []).length) :
    ((data.map (fun row => row.map f)).getD i []).getD j d2 =
      f ((data.getD i []).getD j dflt) := by
  have houter : (data.map (fun row => row.map f)).getD i [] =
      (data.getD i []).map f := by
    have := List.getD_map data [] (fun row => row.map f) (n := i)
    simpa using this
  rw [houter]
  have hsome : (data.getD i [])[j]? = some ((data.getD i []).getD j dflt) := by
    rw [List.getD_eq_getElem (data.getD i []) dflt hj]
    exact List.getElem?_eq_getElem hj
  rw [List.getD_eq_getElem?_getD, List.getElem?_map, hsome]
  rfl

theorem npArctan2_bounds (y x : ℝ) :
    -Real.pi < npArctan2 y x ∧ npArctan2 y x ≤ Real.pi := by
  have hpi := Real.pi_pos
  have h1 := Real.arctan_lt_pi_div_two (y / x)
  have h2 := Real.neg_pi_div_two_lt_arctan (y / x)
  unfold npArctan2
  split_ifs with hx hxneg hy hypos hyneg
  · constructor <;> linarith
  · have hq : y / x ≤ 0 := div_nonpos_of_nonneg_of_nonpos hy hxneg.le
    have ha : Real.arctan (y / x) ≤ 0 := by
      have := Real.arctan_strictMono.monotone hq
      simpa [Real.arctan_zero] using this
    constructor <;> linarith
  · have hy' : y < 0 := lt_of_not_ge hy
    have hq : 0 < y / x := div_pos_of_neg_of_neg hy' hxneg
    have ha : 0 < Real.arctan (y / x) := by
      have := Real.arctan_strictMono hq
      simpa [Real.arctan_zero] using this
    constructor <;> linarith
  · constructor <;> linarith
  · constructor <;> linarith
  · constructor <;> linarith

/-- Claim C2: on a `length × width` buffer of complex samples, the
`read_complex64` decode yields, elementwise in row-major order, plane A =
`hypot(re, im)` and plane B = `atan2(im, re)`, and every plane-B value lies
in the half-open interval `(-π, π]`. -/
theorem claim_C2 (L w : Nat) (buf : List (ℝ × ℝ)) (hbuf : buf.length = L * w)
    (i j : Nat) (hi : i < L) (hj : j < w) :
    (((read_complex64 L w buf).1.getD i []).getD j 0 =
        npHypot (buf.getD (i * w + j) (0, 0)).1 (buf.getD (i * w + j) (0, 0)).2) ∧
    (((read_complex64 L w buf).2.getD i []).getD j 0 =
        npArctan2 (buf.getD (i * w + j) (0, 0)).2 (buf.getD (i * w + j) (0, 0)).1) ∧
    (∀ row ∈ (read_complex64 L w buf).2, ∀ v ∈ row,
        -Real.pi < v ∧ v ≤ Real.pi) := by
  have hrow : ((chunkRows w L buf).getD i []).length = w :=
    chunkRows_row_length w L buf i hbuf hi
  have hidx : ∀ d : ℝ × ℝ, ((chunkRows w L buf).getD i []).getD j d =
      buf.getD (i * w + j) d := fun d => chunkRows_getD w L buf i j d hi hj
  refine ⟨?_, ?_, ?_⟩
  · simp only [read_complex64]
    rw [map_map_getD (chunkRows w L buf) (fun z => npHypot z.1 z.2) (0, 0) 0 i j
      (by omega), hidx]
  · simp only [read_complex64]
    rw [map_map_getD (chunkRows w L buf) (fun z => npArctan2 z.2 z.1) (0, 0) 0 i j
      (by omega), hidx]
  · intro row hrowmem v hv
    simp only [read_complex64, List.mem_map] at hrowmem
    obtain ⟨r, _, hr⟩ := hrowmem
    subst hr
    simp only [List.mem_map] at hv
    obtain ⟨z, _, hz⟩ := hv
    subst hz
    exact npArctan2_bounds z.2 z.1

/-- Witness for C2: a concrete `1 × 2` complex buffer. -/
theorem claim_C2_witness :
    ([((1 : ℝ), (0 : ℝ)), (0, 1)].length = 1 * 2) ∧ (0 : Nat) < 1 ∧ (1 : Nat) < 2 ∧
    ((((read_complex64 1 2 [((1 : ℝ), (0 : ℝ)), (0, 1)]).1.getD 0 []).getD 1 0 =
        npHypot ([((1 : ℝ), (0 : ℝ)), (0, 1)].getD (0 * 2 + 1) (0, 0)).1
          ([((1 : ℝ), (0 : ℝ)), (0, 1)].getD (0 * 2 + 1) (0, 0)).2) ∧
      (((read_complex64 1 2 [((1 : ℝ), (0 : ℝ)), (0, 1)]).2.getD 0 []).getD 1 0 =
        npArctan2 ([((1 : ℝ), (0 : ℝ)), (0, 1)].getD (0 * 2 + 1) (0, 0)).2
          ([((1 : ℝ), (0 : ℝ)), (0, 1)].getD (0 * 2 + 1) (0, 0)).1) ∧
      (∀ row ∈ (read_complex64 1 2 [((1 : ℝ), (0 : ℝ)), (0, 1)]).2, ∀ v ∈ row,
        -Real.pi < v ∧ v ≤ Real.pi)) :=
  ⟨rfl, by decide, by decide,
    claim_C2 1 2 [((1 : ℝ), (0 : ℝ)), (0, 1)] rfl 0 1 (by decide) (by decide)⟩

end SSARA

namespace SSARA

/-! ## Error behaviour of the byte-level decoders (C3) -/

theorem npFromfileItems_length (itemsize count : Nat) (bytes : List Nat) :
    (npFromfileItems itemsize count bytes).length =
      min count (bytes.length / itemsize) := by
  simp [npFromfileItems, List.length_take, chunkRows_length]

theorem okE_ifReshape {c : Type} (p : Prop) [Decidable p] (x : c) :
    isOkE (if p then (Except.ok x : Except PyError c)
      else Except.error PyError.valueError) = true ↔ p := by
  split_ifs with h <;> simp [isOkE, h]

/-- Claim C3 (amended): `read_float32` from bytes succeeds iff the buffer
holds at least `length*2*width` complete 4-byte items (longer buffers are
accepted, the excess is ignored); `read_complex64` from bytes succeeds iff
`length*width = 0` or the buffer holds exactly `length*width` complete
8-byte items (a trailing partial item is ignored).  There is no dimension
check: zero dimensions always succeed with empty planes, and failures are
reshape ValueErrors, not structured ShortRead / InvalidDimensions errors. -/
theorem claim_C3_amended (L w : Nat) (bytes : List Nat) :
    (isOkE (read_float32_bytes L w bytes) = true ↔
      L * 2 * w ≤ bytes.length / 4) ∧
    (isOkE (read_complex64_bytes L w bytes) = true ↔
      (L * w = 0 ∨ bytes.length / 8 = L * w)) := by
  constructor
  · simp only [read_float32_bytes]
    rw [okE_ifReshape, npFromfileItems_length]
    exact min_eq_left_iff
  · simp only [read_complex64_bytes]
    rw [okE_ifReshape, npFromfileItems_length]
    have e1 : L * 2 * w = 2 * (L * w) := by ring
    rw [e1]
    generalize L * w = a
    generalize bytes.length / 8 = b
    omega

/-- Counterexample to C3 as stated: a 12-byte buffer (expected byte count
`2*1*1*4 = 8`) decodes successfully under `InterleavedFloat32Pairs` instead
of failing with ShortRead, and zero dimensions decode successfully instead
of failing with InvalidDimensions. -/
theorem claim_C3_counterexample :
    isOkE (read_float32_bytes 1 1 (List.replicate 12 0)) = true ∧
    (List.replicate 12 (0 : Nat)).length ≠ 2 * 1 * 1 * 4 ∧
    isOkE (read_float32_bytes 0 3 []) = true ∧
    isOkE (read_complex64_bytes 5 0 []) = true := by decide

/-! ## The flat key=value reader (C6) -/

theorem splitOnChar_not_mem (sep : Char) :
    ∀ (l : List Char), sep ∉ l → splitOnChar sep l = [l] := by
  intro l
  induction l with
  | nil => intro _; rfl
  | cons c rest ih =>
    intro h
    have hc : ¬ c = sep := fun hc => h (hc ▸ List.mem_cons_self c rest)
    have hrest : sep ∉ rest := fun hm => h (List.mem_cons_of_mem c hm)
    simp [splitOnChar, hc, ih hrest]

theorem splitOnChar_append (sep : Char) :
    ∀ (k v : List Char), sep ∉ k →
      splitOnChar sep (k ++ sep :: v) = k :: splitOnChar sep v := by
  intro k
  induction k with
  | nil =>
    intro v _
    simp [splitOnChar]
  | cons c k' ih =>
    intro v h
    have hc : ¬ c = sep := fun hc => h (hc ▸ List.mem_cons_self c k')
    have hk' : sep ∉ k' := fun hm => h (List.mem_cons_of_mem c hm)
    simp [splitOnChar, hc, ih v hk']

theorem prmParseLine_two (k v1 v2 : List Char) (hk : '=' ∉ k) (hv1 : '=' ∉ v1) :
    prmParseLine (k ++ '=' :: (v1 ++ '=' :: v2)) =
      Except.ok (pyStrip k, pyStrip (v1.filter (fun ch => ch ≠ '\n'))) := by
  unfold prmParseLine
  rw [splitOnChar_append '=' k (v1 ++ '=' :: v2) hk, splitOnChar_append '=' v1 v2 hv1]

theorem prmParseLine_one (k v1 : List Char) (hk : '=' ∉ k) (hv1 : '=' ∉ v1) :
    prmParseLine (k ++ '=' :: v1) =
      Except.ok (pyStrip k, pyStrip (v1.filter (fun ch => ch ≠ '\n'))) := by
  unfold prmParseLine
  rw [splitOnChar_append '=' k v1 hk, splitOnChar_not_mem '=' v1 hv1]

theorem prmParseLine_noSep (l : List Char) (hl : '=' ∉ l) :
    prmParseLine l = Except.error PyError.indexError := by
  unfold prmParseLine
  rw [splitOnChar_not_mem '=' l hl]

/-- Claim C6 (amended): `read_prm` splits each line on EVERY `=` and keeps
only the segment between the first and the second `=` as the value (text
after a second `=` is dropped); the key is stripped and the value has
newlines removed and is stripped; a line without `=` — including blank and
comment lines — raises IndexError instead of being ignored; when the same
key occurs on several lines the last occurrence wins. -/
theorem claim_C6_amended (k v1 v2 w1 l : List Char)
    (hk : '=' ∉ k) (hv1 : '=' ∉ v1) (hw1 : '=' ∉ w1) (hl : '=' ∉ l) :
    (read_prm [k ++ '=' :: (v1 ++ '=' :: v2)] =
      Except.ok [(pyStrip k, pyStrip (v1.filter (fun ch => ch ≠ '\n')))]) ∧
    (read_prm [l] = Except.error PyError.indexError) ∧
    (read_prm [k ++ '=' :: v1, k ++ '=' :: w1] =
      Except.ok [(pyStrip k, pyStrip (w1.filter (fun ch => ch ≠ '\n')))]) := by
  refine ⟨?_, ?_, ?_⟩
  · simp [read_prm, readPrmGo, prmParseLine_two k v1 v2 hk hv1, dictSet]
  · simp [read_prm, readPrmGo, prmParseLine_noSep l hl]
  · simp [read_prm, readPrmGo, prmParseLine_one k v1 hk hv1,
      prmParseLine_one k w1 hk hw1, dictSet]

/-- Witness for C6 (amended) at concrete lines `K=a=b`, `K=a`, `K=c` and the
blank line. -/
theorem claim_C6_witness :
    ('=' ∉ ['K']) ∧ ('=' ∉ ['a']) ∧ ('=' ∉ ['c']) ∧ ('=' ∉ ([] : List Char)) ∧
    ((read_prm [['K'] ++ '=' :: (['a'] ++ '=' :: ['b'])] =
      Except.ok [(pyStrip ['K'], pyStrip (['a'].filter (fun ch => ch ≠ '\n')))]) ∧
    (read_prm [([] : List Char)] = Except.error PyError.indexError) ∧
    (read_prm [['K'] ++ '=' :: ['a'], ['K'] ++ '=' :: ['c']] =
      Except.ok [(pyStrip ['K'], pyStrip (['c'].filter (fun ch => ch ≠ '\n')))])) :=
  ⟨by decide, by decide, by decide, by decide,
    claim_C6_amended ['K'] ['a'] ['b'] ['c'] [] (by decide) (by decide)
      (by decide) (by decide)⟩

/-- Counterexample to C6 as stated: the line `KEY = a=b` yields the value
`a` — the text after the second `=` is lost, so a value containing `=` is
NOT preserved intact — and a blank line (`"\n"` as read by Python file
iteration) raises IndexError instead of being ignored. -/
theorem claim_C6_counterexample :
    read_prm ["KEY = a=b\n".toList] =
      Except.ok [("KEY".toList, "a".toList)] ∧
    "a".toList ≠ "a=b".toList ∧
    read_prm ["\n".toList] = Except.error PyError.indexError := by decide

end SSARA

namespace SSARA

/-! ## Metadata resolution: mandatory fields (C4) and mission lookup (C10) -/

theorem mandatoryDict_eq (a b c d e f g : AttrVal) :
    dictSet (dictSet (dictSet (dictSet (dictSet (dictSet (dictSet []
      "mission" a) "beam_swath" b) "relative_orbit" c) "first_date" d)
      "last_date" e) "scene_footprint" f) "processing_type" g =
    [("mission", a), ("beam_swath", b), ("relative_orbit", c), ("first_date", d),
     ("last_date", e), ("scene_footprint", f), ("processing_type", g)] := by
  simp +decide [dictSet]

/-- Claim C4: (a) if `SC_clock_start` — the source of the mandatory
`first_date` — is absent from the master PRM map, resolution fails with the
KeyError naming the missing field rather than producing an attribute map;
(b) whenever resolution succeeds, every mandatory field is present in the
resulting attribute map. -/
theorem claim_C4 (clos : GmtsarClos) (prm1 prm2 : List (String × String)) :
    (prm1.lookup "SC_clock_start" = none →
      resolveMandatoryGmtsar clos prm1 prm2 =
        Except.error (PyError.keyError "SC_clock_start")) ∧
    (∀ m, resolveMandatoryGmtsar clos prm1 prm2 = Except.ok m →
      ∀ k ∈ (["mission", "beam_swath", "relative_orbit", "first_date",
              "last_date", "processing_type"] : List String),
        (m.lookup k).isSome = true) := by
  constructor
  · intro h
    simp [resolveMandatoryGmtsar, pyGet, h]
  · intro m hm k hk
    unfold resolveMandatoryGmtsar at hm
    repeat' split at hm
    all_goals
      first
      | exact Except.noConfusion hm
      | (rw [mandatoryDict_eq] at hm
         cases hm
         simp only [List.mem_cons, List.not_mem_nil, or_false] at hk
         rcases hk with rfl | rfl | rfl | rfl | rfl | rfl <;>
           simp +decide [List.lookup])

/-- Witness for C4: with `SC_clock_start` absent from every source, the
resolution fails. -/
theorem claim_C4_witness :
    (List.lookup "SC_clock_start" ([] : List (String × String)) = none) ∧
    resolveMandatoryGmtsar ⟨none, none, 0, "", ""⟩ [] [] =
      Except.error (PyError.keyError "SC_clock_start") :=
  ⟨rfl, (claim_C4 ⟨none, none, 0, "", ""⟩ [] []).1 rfl⟩

/-- Claim C10 (amended): with a truthy (non-empty) `-mission` value the
`SC_identity` table is bypassed; with `-mission` omitted the mission comes
from the nine-entry `mission2sc_id` table (identity `'6'` maps to the empty
string) and any `SC_identity` outside the table raises KeyError; but a
SUPPLIED empty-string `-mission` does NOT bypass the table — Python
truthiness treats it like an omitted flag. -/
theorem claim_C10_amended (s : String) (hs : s ≠ "")
    (prm : List (String × String)) (v : String)
    (hv : prm.lookup "SC_identity" = some v)
    (hnv : mission2sc_id.lookup v = none) :
    (resolveMission (some s) prm = Except.ok s) ∧
    (resolveMission none prm = Except.error (PyError.keyError v)) ∧
    (resolveMission (some "") prm = resolveMission none prm) ∧
    (∀ kv ∈ mission2sc_id,
      resolveMission none [("SC_identity", kv.1)] = Except.ok kv.2) := by
  refine ⟨?_, ?_, ?_, ?_⟩
  · simp [resolveMission, pyTruthy, bne_iff_ne, hs]
  · simp [resolveMission, pyTruthy, pyGet, hv, hnv]
  · simp [resolveMission, pyTruthy]
  · decide

/-- Witness for C10 (amended) at a non-empty mission string and an
`SC_identity` value outside the table. -/
theorem claim_C10_witness :
    (("ALOS2" : String) ≠ "") ∧
    (List.lookup "SC_identity" [("SC_identity", "0")] = some "0") ∧
    (mission2sc_id.lookup "0" = none) ∧
    ((resolveMission (some "ALOS2") [("SC_identity", "0")] = Except.ok "ALOS2") ∧
      (resolveMission none [("SC_identity", "0")] =
        Except.error (PyError.keyError "0")) ∧
      (resolveMission (some "") [("SC_identity", "0")] =
        resolveMission none [("SC_identity", "0")]) ∧
      (∀ kv ∈ mission2sc_id,
        resolveMission none [("SC_identity", kv.1)] = Except.ok kv.2)) :=
  ⟨by decide, by decide, by decide,
    claim_C10_amended "ALOS2" (by decide) [("SC_identity", "0")] "0"
      (by decide) (by decide)⟩

/-- Counterexample to C10 as stated: supplying `-mission ""` does not bypass
the table — with `SC_identity = '7'` the resolved mission is `TSX`, not the
supplied (empty) value. -/
theorem claim_C10_counterexample :
    resolveMission (some "") [("SC_identity", "7")] = Except.ok "TSX" ∧
    Except.ok "TSX" ≠ (Except.ok "" : Except PyError String) := by decide

end SSARA

namespace SSARA

/-! ## Footprint ring construction (C5) and dataset guards (C7) -/

/-- Claim C5: from the four corner coordinates of the .rsc dictionary the
footprint ring is built in the fixed traversal order REF1, REF3, REF4, REF2,
REF1 (near-early, far-early, far-late, near-late, near-early), each vertex
formatted as `"lon lat"`; the ring has exactly 5 vertices, and its first and
last vertices are identical (explicit closure). -/
theorem claim_C5 (rsc : List (String × String))
    (lat1 lat2 lat3 lat4 lon1 lon2 lon3 lon4 : String)
    (h1 : rsc.lookup "LAT_REF1" = some lat1)
    (h2 : rsc.lookup "LAT_REF2" = some lat2)
    (h3 : rsc.lookup "LAT_REF3" = some lat3)
    (h4 : rsc.lookup "LAT_REF4" = some lat4)
    (h5 : rsc.lookup "LON_REF1" = some lon1)
    (h6 : rsc.lookup "LON_REF2" = some lon2)
    (h7 : rsc.lookup "LON_REF3" = some lon3)
    (h8 : rsc.lookup "LON_REF4" = some lon4) :
    (roipacFootprintLists rsc =
      Except.ok ([lat1, lat3, lat4, lat2, lat1], [lon1, lon3, lon4, lon2, lon1])) ∧
    (footprintVertexList [lat1, lat3, lat4, lat2, lat1]
        [lon1, lon3, lon4, lon2, lon1] =
      [lon1 ++ " " ++ lat1, lon3 ++ " " ++ lat3, lon4 ++ " " ++ lat4,
       lon2 ++ " " ++ lat2, lon1 ++ " " ++ lat1]) ∧
    ((footprintVertexList [lat1, lat3, lat4, lat2, lat1]
        [lon1, lon3, lon4, lon2, lon1]).length = 5) ∧
    ((footprintVertexList [lat1, lat3, lat4, lat2, lat1]
        [lon1, lon3, lon4, lon2, lon1]).head? =
      (footprintVertexList [lat1, lat3, lat4, lat2, lat1]
        [lon1, lon3, lon4, lon2, lon1]).getLast?) ∧
    (roipacSceneFootprint rsc = Except.ok (footprintWKT
      [lat1, lat3, lat4, lat2, lat1] [lon1, lon3, lon4, lon2, lon1])) := by
  refine ⟨?_, ?_, ?_, ?_, ?_⟩
  · simp [roipacFootprintLists, pyGet, h1, h2, h3, h4, h5, h6, h7, h8]
  · simp [footprintVertexList]
  · simp [footprintVertexList]
  · simp [footprintVertexList, List.getLast?]
  · simp [roipacSceneFootprint, roipacFootprintLists, pyGet,
      h1, h2, h3, h4, h5, h6, h7, h8]

/-- Witness for C5 at a concrete .rsc dictionary with corner values 1..8. -/
theorem claim_C5_witness :
    ((List.lookup "LAT_REF1" [("LAT_REF1", "1"), ("LAT_REF2", "2"),
        ("LAT_REF3", "3"), ("LAT_REF4", "4"), ("LON_REF1", "5"),
        ("LON_REF2", "6"), ("LON_REF3", "7"), ("LON_REF4", "8")] = some "1") ∧
      (List.lookup "LON_REF4" [("LAT_REF1", "1"), ("LAT_REF2", "2"),
        ("LAT_REF3", "3"), ("LAT_REF4", "4"), ("LON_REF1", "5"),
        ("LON_REF2", "6"), ("LON_REF3", "7"), ("LON_REF4", "8")] = some "8")) ∧
    roipacFootprintLists [("LAT_REF1", "1"), ("LAT_REF2", "2"),
        ("LAT_REF3", "3"), ("LAT_REF4", "4"), ("LON_REF1", "5"),
        ("LON_REF2", "6"), ("LON_REF3", "7"), ("LON_REF4", "8")] =
      Except.ok (["1", "3", "4", "2", "1"], ["5", "7", "8", "6", "5"]) ∧
    (footprintVertexList ["1", "3", "4", "2", "1"] ["5", "7", "8", "6", "5"]).length = 5 :=
  ⟨⟨by decide, by decide⟩,
    (claim_C5 [("LAT_REF1", "1"), ("LAT_REF2", "2"), ("LAT_REF3", "3"),
      ("LAT_REF4", "4"), ("LON_REF1", "5"), ("LON_REF2", "6"),
      ("LON_REF3", "7"), ("LON_REF4", "8")] "1" "2" "3" "4" "5" "6" "7" "8"
      (by decide) (by decide) (by decide) (by decide) (by decide) (by decide)
      (by decide) (by decide)).1,
    (claim_C5 [("LAT_REF1", "1"), ("LAT_REF2", "2"), ("LAT_REF3", "3"),
      ("LAT_REF4", "4"), ("LON_REF1", "5"), ("LON_REF2", "6"),
      ("LON_REF3", "7"), ("LON_REF4", "8")] "1" "2" "3" "4" "5" "6" "7" "8"
      (by decide) (by decide) (by decide) (by decide) (by decide) (by decide)
      (by decide) (by decide)).2.2.1⟩

/-- Claim C7 is refuted by a code bug: the ROI_PAC writer's final guard
tests the misspelled name `digital_elevatino_model` while creating
`digital_elevation_model`, so on a group that already holds
`digital_elevation_model` the writer attempts to re-create it and h5py
raises, instead of skipping as the idempotence contract requires.  (The
other four guards do test the name they create and skip it when present.) -/
theorem claim_C7_bug :
    roipacWriteGeocode ["digital_elevation_model"] =
      Except.error (PyError.datasetExists "digital_elevation_model") ∧
    gmtsarWriteGeocode ["wrapped_interferogram", "unwrapped_interferogram",
      "wrapped_filtered_interferogram", "correlation"] =
      Except.ok ["wrapped_interferogram", "unwrapped_interferogram",
        "wrapped_filtered_interferogram", "correlation"] := by decide

end SSARA

namespace SSARA

/-! ## Attribute write order (C8) -/

theorem lexLe_total : ∀ (a b : List Char), lexLe a b = true ∨ lexLe b a = true := by
  intro a
  induction a with
  | nil => intro b; left; rfl
  | cons x xs ih =>
    intro b
    cases b with
    | nil => right; rfl
    | cons y ys =>
      rcases Nat.lt_trichotomy x.toNat y.toNat with h1 | h1 | h1
      · left; simp [lexLe, h1]
      · rcases ih ys with h | h
        · left
          have hn : ¬ x.toNat < y.toNat := by omega
          simp [lexLe, hn, h1, h]
        · right
          have hn : ¬ y.toNat < x.toNat := by omega
          simp [lexLe, hn, h1.symm, h]
      · right; simp [lexLe, h1]

theorem lexLe_trans : ∀ (a b c : List Char),
    lexLe a b = true → lexLe b c = true → lexLe a c = true := by
  intro a
  induction a with
  | nil => intro b c _ _; rfl
  | cons x xs ih =>
    intro b c hab hbc
    cases b with
    | nil => simp [lexLe] at hab
    | cons y ys =>
      cases c with
      | nil => simp [lexLe] at hbc
      | cons z zs =>
        rcases Nat.lt_trichotomy x.toNat y.toNat with h1 | h1 | h1
        · rcases Nat.lt_trichotomy y.toNat z.toNat with h2 | h2 | h2
          · have hxz : x.toNat < z.toNat := by omega
            simp [lexLe, hxz]
          · have hxz : x.toNat < z.toNat := by omega
            simp [lexLe, hxz]
          · have hn1 : ¬ y.toNat < z.toNat := by omega
            have hn2 : ¬ y.toNat = z.toNat := by omega
            simp [lexLe, hn1, hn2] at hbc
        · rcases Nat.lt_trichotomy y.toNat z.toNat with h2 | h2 | h2
          · have hxz : x.toNat < z.toNat := by omega
            simp [lexLe, hxz]
          · have hn : ¬ x.toNat < y.toNat := by omega
            have hab' : lexLe xs ys = true := by simpa [lexLe, hn, h1] using hab
            have hn2 : ¬ y.toNat < z.toNat := by omega
            have hbc' : lexLe ys zs = true := by simpa [lexLe, hn2, h2] using hbc
            have hxz : ¬ x.toNat < z.toNat := by omega
            have hxz2 : x.toNat = z.toNat := by omega
            simp [lexLe, hxz, hxz2, ih ys zs hab' hbc']
          · have hn1 : ¬ y.toNat < z.toNat := by omega
            have hn2 : ¬ y.toNat = z.toNat := by omega
            simp [lexLe, hn1, hn2] at hbc
        · have hn1 : ¬ x.toNat < y.toNat := by omega
          have hn2 : ¬ x.toNat = y.toNat := by omega
          simp [lexLe, hn1, hn2] at hab

/-- Claim C8 (amended): the GMTSAR converter's attribute write sequence is
sorted by key and is a permutation of the metadata items — its order is
deterministic.  (The ROI_PAC and ISCE converters do not sort; see the
counterexample.) -/
theorem claim_C8_amended {V : Type} (m : List (String × V)) :
    List.Sorted (fun a b => keyLe a b = true) ((gmtsarAttrWrites m).map Prod.fst) ∧
    (gmtsarAttrWrites m).Perm m := by
  constructor
  · haveI : IsTotal (String × V) (fun p q => keyLe p.1 q.1 = true) :=
      ⟨fun p q => lexLe_total p.1.toList q.1.toList⟩
    haveI : IsTrans (String × V) (fun p q => keyLe p.1 q.1 = true) :=
      ⟨fun p q r hpq hqr => lexLe_trans p.1.toList q.1.toList r.1.toList hpq hqr⟩
    have hs := List.sorted_insertionSort
      (fun p q : String × V => keyLe p.1 q.1 = true) m
    show List.Pairwise (fun a b => keyLe a b = true) _
    rw [List.pairwise_map]
    exact hs
  · exact List.perm_insertionSort _ m

/-- Counterexample to C8 as stated: the ROI_PAC and ISCE converters write
attributes in dict iteration order with no sorting — on a dictionary whose
keys were inserted as `b` then `a`, the write order is `b, a`, not sorted by
key. -/
theorem claim_C8_counterexample :
    roipacAttrWrites [("b", AttrVal.int 1), ("a", AttrVal.int 2)] =
      [("b", AttrVal.int 1), ("a", AttrVal.int 2)] ∧
    isceAttrWrites [("b", AttrVal.int 1), ("a", AttrVal.int 2)] =
      [("b", AttrVal.int 1), ("a", AttrVal.int 2)] ∧
    ¬ List.Sorted (fun a b => keyLe a b = true)
        ((roipacAttrWrites [("b", AttrVal.int 1), ("a", AttrVal.int 2)]).map
          Prod.fst) := by
  refine ⟨rfl, rfl, ?_⟩
  intro h
  have h2 := (List.pairwise_cons.mp h).1 "a" (by simp [roipacAttrWrites])
  exact absurd h2 (by decide)

end SSARA

namespace SSARA

/-! ## The footprint-from-log fallback (C9) -/

theorem scanCorners_lengths :
    ∀ (log : List (List Char)) (lats lons : List (List Char)),
      scanCorners log = Except.ok (lats, lons) → lats.length = lons.length := by
  intro log
  induction log with
  | nil =>
    intro lats lons h
    simp only [scanCorners] at h
    cases h
    rfl
  | cons line rest ih =>
    intro lats lons h
    simp only [scanCorners] at h
    by_cases hm : isCornerMarker line = true
    · rw [if_pos hm] at h
      cases rest with
      | nil => exact Except.noConfusion h
      | cons next rest2 =>
        cases hs : scanCorners (next :: rest2) with
        | error e => rw [hs] at h; exact Except.noConfusion h
        | ok p =>
          rw [hs] at h
          cases h
          have hp := ih p.1 p.2 (by rw [hs])
          simp [hp]
    · rw [if_neg hm] at h
      exact ih lats lons h

theorem dictSet_keys {K V : Type} [DecidableEq K] :
    ∀ (m : List (K × V)) (k : K) (v : V) (q : K),
      q ∈ (dictSet m k v).map Prod.fst → q = k ∨ q ∈ m.map Prod.fst := by
  intro m k v
  induction m with
  | nil =>
    intro q h
    simp [dictSet] at h
    exact Or.inl h
  | cons p rest ih =>
    intro q h
    obtain ⟨pk, pv⟩ := p
    simp only [dictSet] at h
    by_cases hpk : pk = k
    · rw [if_pos hpk] at h
      simp only [List.map_cons, List.mem_cons] at h
      rcases h with h | h
      · exact Or.inr (by simp [h])
      · exact Or.inr (by simp [h])
    · rw [if_neg hpk] at h
      simp only [List.map_cons, List.mem_cons] at h
      rcases h with h | h
      · exact Or.inr (by simp [h])
      · rcases ih q h with h2 | h2
        · exact Or.inl h2
        · exact Or.inr (by simp [h2])

/-- Claim C9 (amended): the log-scrape fallback is best-effort but NOT
failure-proof and NOT flagged: when the scan yields at least four corner
pairs the footprint is produced, when it yields fewer the run fails with
IndexError, and on success the only attribute the step contributes is
`scene_footprint` itself — no low-confidence marker of any kind is added to
the attribute set. -/
theorem claim_C9_amended (log : List (List Char)) (lats lons : List (List Char))
    (meta : List (String × AttrVal)) (m : List (String × AttrVal)) :
    (scanCorners log = Except.ok (lats, lons) → 4 ≤ lats.length →
      isOkE (footprintFromLogFile log) = true) ∧
    (scanCorners log = Except.ok (lats, lons) → lats.length < 4 →
      footprintFromLogFile log = Except.error PyError.indexError) ∧
    (isceSetFootprint meta log = Except.ok m →
      ∀ k ∈ m.map Prod.fst, k = "scene_footprint" ∨ k ∈ meta.map Prod.fst) := by
  refine ⟨?_, ?_, ?_⟩
  · intro hs h4
    have hlen := scanCorners_lengths log lats lons hs
    simp only [footprintFromLogFile, hs]
    rw [if_pos ⟨h4, hlen ▸ h4⟩]
    rfl
  · intro hs h4
    simp only [footprintFromLogFile, hs]
    rw [if_neg (fun hc => absurd hc.1 (by omega))]
  · intro hm k hk
    unfold isceSetFootprint at hm
    split at hm
    · exact Except.noConfusion hm
    · cases hm
      exact dictSet_keys meta "scene_footprint" _ k hk

/-- Witness for C9 (amended) at a concrete eight-line log holding four
corner-marker lines, each followed by its longitude line. -/
theorem claim_C9_witness :
    (scanCorners ["contrib.frameUtils.FrameInfoExtractorCorner:1".toList,
        ":2".toList, "contrib.frameUtils.FrameInfoExtractorCorner:3".toList,
        ":4".toList, "contrib.frameUtils.FrameInfoExtractorCorner:5".toList,
        ":6".toList, "contrib.frameUtils.FrameInfoExtractorCorner:7".toList,
        ":8".toList] =
      Except.ok ([['1'], ['3'], ['5'], ['7']], [['2'], ['4'], ['6'], ['8']])) ∧
    (4 ≤ ([['1'], ['3'], ['5'], ['7']] : List (List Char)).length) ∧
    isOkE (footprintFromLogFile
      ["contrib.frameUtils.FrameInfoExtractorCorner:1".toList, ":2".toList,
       "contrib.frameUtils.FrameInfoExtractorCorner:3".toList, ":4".toList,
       "contrib.frameUtils.FrameInfoExtractorCorner:5".toList, ":6".toList,
       "contrib.frameUtils.FrameInfoExtractorCorner:7".toList,
       ":8".toList]) = true ∧
    (isceSetFootprint []
        ["contrib.frameUtils.FrameInfoExtractorCorner:1".toList, ":2".toList,
         "contrib.frameUtils.FrameInfoExtractorCorner:3".toList, ":4".toList,
         "contrib.frameUtils.FrameInfoExtractorCorner:5".toList, ":6".toList,
         "contrib.frameUtils.FrameInfoExtractorCorner:7".toList,
         ":8".toList] =
      Except.ok [("scene_footprint",
        AttrVal.str "POLYGON((2 1,4 3,8 7,6 5,2 1))")]) ∧
    (∀ k ∈ ([("scene_footprint",
          AttrVal.str "POLYGON((2 1,4 3,8 7,6 5,2 1))")] :
            List (String × AttrVal)).map Prod.fst,
      k = "scene_footprint" ∨
        k ∈ ([] : List (String × AttrVal)).map Prod.fst) :=
  ⟨by decide, by decide,
    (claim_C9_amended
      ["contrib.frameUtils.FrameInfoExtractorCorner:1".toList, ":2".toList,
       "contrib.frameUtils.FrameInfoExtractorCorner:3".toList, ":4".toList,
       "contrib.frameUtils.FrameInfoExtractorCorner:5".toList, ":6".toList,
       "contrib.frameUtils.FrameInfoExtractorCorner:7".toList, ":8".toList]
      [['1'], ['3'], ['5'], ['7']] [['2'], ['4'], ['6'], ['8']] []
      [("scene_footprint",
        AttrVal.str "POLYGON((2 1,4 3,8 7,6 5,2 1))")]).1
      (by decide) (by decide),
    by decide,
    (claim_C9_amended
      ["contrib.frameUtils.FrameInfoExtractorCorner:1".toList, ":2".toList,
       "contrib.frameUtils.FrameInfoExtractorCorner:3".toList, ":4".toList,
       "contrib.frameUtils.FrameInfoExtractorCorner:5".toList, ":6".toList,
       "contrib.frameUtils.FrameInfoExtractorCorner:7".toList, ":8".toList]
      [['1'], ['3'], ['5'], ['7']] [['2'], ['4'], ['6'], ['8']] []
      [("scene_footprint",
        AttrVal.str "POLYGON((2 1,4 3,8 7,6 5,2 1))")]).2.2
      (by decide)⟩

/-- Counterexample to C9 as stated: the fallback is claimed never to make
the run fail, but a processing log with no corner marker lines (here: the
empty log) makes the footprint extraction — and with it the run — fail with
IndexError. -/
theorem claim_C9_counterexample :
    footprintFromLogFile [] = Except.error PyError.indexError ∧
    isceSetFootprint [] [] = Except.error PyError.indexError := by decide

end SSARA
